import Mathlib

/-!
Shallow embedding of the orbital-estimation core of the solar-system-explore
repository (src/orbital_calculations.py, with the spacecraft arrival logic
shared by src/app.py), together with theorems settling the specification
claims about it.

Modelling conventions:
* Python floats are modelled by real numbers; `math.sin`, `math.cos`,
  `math.sqrt`, `math.atan2` become `Real.sin`, `Real.cos`, `Real.sqrt` and
  `Complex.arg`-based `atan2`; Python float `%` becomes `fmod x y = x - y*⌊x/y⌋`.
* `datetime` values are records of integer fields; chronological order and
  subtraction are modelled through `dtMicro`, the microsecond count derived
  from the same Julian-day-number formula the repository itself uses.
* `datetime.strptime(s, "%Y-%m-%d")` is modelled by the executable `parseDate`,
  reproducing CPython's regex fragments for %Y (exactly four digits),
  %m (`1[0-2]|0[1-9]|[1-9]`) and %d (`3[01]|[12]\d|0[1-9]|[1-9]| [1-9]`),
  full-string consumption, and datetime construction checks (year ≥ 1,
  day within month, Gregorian leap years).  A raised exception is `none`.
* `datetime.now()` inside `calculate_spacecraft_position` is made explicit as
  the `current_time` parameter; a propagated exception makes the result `none`.
-/

set_option linter.unusedVariables false

/-- Astronomical Unit in km (module constant `AU`). -/
def AU : ℝ := 1.496e8

/-- Gravitational constant in km^3 kg^-1 s^-2 (module constant `G`). -/
def G : ℝ := 6.67430e-20

/-- Mass of the Sun in kg (module constant `M_SUN`). -/
def M_SUN : ℝ := 1.989e30

/-- Seconds in a day (module constant `DAY_SECONDS`). -/
def DAY_SECONDS : ℝ := 86400

/-- Seconds in a year (module constant `YEAR_SECONDS`). -/
def YEAR_SECONDS : ℝ := 365.25 * DAY_SECONDS

/-- A calendar date as produced by `datetime.strptime(s, "%Y-%m-%d")`. -/
structure Date where
  year : Int
  month : Int
  day : Int
deriving DecidableEq

/-- A Python `datetime` value (normalized fields). -/
structure DateTime where
  year : Int
  month : Int
  day : Int
  hour : Int
  minute : Int
  second : Int
  microsecond : Int
deriving DecidableEq

/-- Integer Julian Day Number of a calendar day, exactly the integer part of
`OrbitalCalculator.julian_date` (Python `//` is floor division, `Int.fdiv`). -/
def jdnOf (year month day : Int) : Int :=
  let a := Int.fdiv (14 - month) 12
  let y := year + 4800 - a
  let m := month + 12 * a - 3
  day + Int.fdiv (153 * m + 2) 5 + 365 * y + Int.fdiv y 4 - Int.fdiv y 100 +
    Int.fdiv y 400 - 32045

/-- `OrbitalCalculator.julian_date`: convert a datetime to a Julian Date. -/
noncomputable def julian_date (dt : DateTime) : ℝ :=
  (jdnOf dt.year dt.month dt.day : ℝ) + ((dt.hour : ℝ) - 12) / 24 +
    (dt.minute : ℝ) / 1440 + (dt.second : ℝ) / 86400 +
    (dt.microsecond : ℝ) / 86400000000

/-- `OrbitalCalculator.days_since_epoch`: days since the J2000.0 epoch. -/
noncomputable def days_since_epoch (jd : ℝ) : ℝ :=
  jd - 2451545.0

/-- Microseconds on the proleptic-Gregorian time axis; chronological order and
subtraction of `datetime` values are modelled through this count. -/
def dtMicro (dt : DateTime) : Int :=
  (((jdnOf dt.year dt.month dt.day * 24 + dt.hour) * 60 + dt.minute) * 60 +
      dt.second) * 1000000 + dt.microsecond

/-- Python `(t2 - t1).total_seconds()` for two datetimes. -/
noncomputable def elapsedSeconds (t1 t2 : DateTime) : ℝ :=
  ((dtMicro t2 - dtMicro t1 : Int) : ℝ) / 1000000

/-- The midnight datetime of a parsed date (what `strptime` returns). -/
def dateStart (d : Date) : DateTime :=
  ⟨d.year, d.month, d.day, 0, 0, 0, 0⟩

/-- Numeric value of a decimal digit character. -/
def digitVal (c : Char) : Int :=
  (c.toNat : Int) - 48

/-- Match exactly four decimal digits (CPython's regex for `%Y`). -/
def parse4 : List Char → Option (Int × List Char)
  | a :: b :: c :: d :: rest =>
    if a.isDigit && b.isDigit && c.isDigit && d.isDigit then
      some (digitVal a * 1000 + digitVal b * 100 + digitVal c * 10 + digitVal d, rest)
    else none
  | _ => none

/-- Match a one- or two-digit month (CPython's regex `1[0-2]|0[1-9]|[1-9]`
for `%m`): two digits when they form a value in 1..12, else one digit 1..9. -/
def parseMonth : List Char → Option (Int × List Char)
  | c1 :: c2 :: rest =>
    if c1.isDigit && c2.isDigit &&
        decide (1 ≤ digitVal c1 * 10 + digitVal c2) &&
        decide (digitVal c1 * 10 + digitVal c2 ≤ 12) then
      some (digitVal c1 * 10 + digitVal c2, rest)
    else if c1.isDigit && decide (1 ≤ digitVal c1) then
      some (digitVal c1, c2 :: rest)
    else none
  | [c1] =>
    if c1.isDigit && decide (1 ≤ digitVal c1) then some (digitVal c1, []) else none
  | [] => none

/-- Match a day (CPython's regex `3[01]|[12]\d|0[1-9]|[1-9]| [1-9]` for `%d`):
two digits forming 1..31, else one digit 1..9, else a space then a digit 1..9. -/
def parseDay : List Char → Option (Int × List Char)
  | c1 :: c2 :: rest =>
    if c1.isDigit && c2.isDigit &&
        decide (1 ≤ digitVal c1 * 10 + digitVal c2) &&
        decide (digitVal c1 * 10 + digitVal c2 ≤ 31) then
      some (digitVal c1 * 10 + digitVal c2, rest)
    else if c1.isDigit && decide (1 ≤ digitVal c1) then
      some (digitVal c1, c2 :: rest)
    else if c1 == ' ' && c2.isDigit && decide (1 ≤ digitVal c2) then
      some (digitVal c2, rest)
    else none
  | [c1] =>
    if c1.isDigit && decide (1 ≤ digitVal c1) then some (digitVal c1, []) else none
  | [] => none

/-- Gregorian leap-year rule used by `datetime` validation. -/
def leapYear (y : Int) : Bool :=
  y % 4 == 0 && (y % 100 != 0 || y % 400 == 0)

/-- Number of days in a month, as enforced by `datetime` construction. -/
def daysInMonth (y m : Int) : Int :=
  if m = 2 then (if leapYear y then 29 else 28)
  else if m = 4 ∨ m = 6 ∨ m = 9 ∨ m = 11 then 30
  else 31

/-- Model of `datetime.strptime(s, "%Y-%m-%d")`: `some` of the parsed date on
success, `none` when a `ValueError` would be raised (regex mismatch, leftover
characters, or datetime-construction range failure). -/
def parseDate (s : String) : Option Date :=
  match parse4 s.data with
  | none => none
  | some (y, r1) =>
    match r1 with
    | '-' :: r2 =>
      match parseMonth r2 with
      | none => none
      | some (m, r3) =>
        match r3 with
        | '-' :: r4 =>
          match parseDay r4 with
          | none => none
          | some (d, r5) =>
            if r5 = [] ∧ 1 ≤ y ∧ d ≤ daysInMonth y m then some ⟨y, m, d⟩ else none
        | _ => none
    | _ => none

/-- The derived arrival flag of `calculate_spacecraft_position` (lines 207-213
of orbital_calculations.py) and of `solar_system_data` in app.py: the record's
arrival text must be present (Python-truthy), parse, and be ≤ the evaluation
instant; a parse failure is swallowed, leaving the flag `false`. -/
def hasArrived (arrival : Option String) (now : DateTime) : Bool :=
  match arrival with
  | none => false
  | some s =>
    if s = "" then false
    else
      match parseDate s with
      | none => false
      | some d => decide (dtMicro (dateStart d) ≤ dtMicro now)

/-- Python `math.radians`: degrees to radians. -/
noncomputable def radians (x : ℝ) : ℝ :=
  x * (Real.pi / 180)

/-- Python float `%` (sign follows the divisor): `x - y * ⌊x / y⌋`. -/
noncomputable def fmod (x y : ℝ) : ℝ :=
  x - y * ⌊x / y⌋

/-- Python `math.atan2 y x`: the argument of the point `(x, y)`, in (-π, π]. -/
noncomputable def atan2 (y x : ℝ) : ℝ :=
  Complex.arg (x + y * Complex.I)

/-- One Newton-Raphson step of the Kepler solve
`E ← E - (E - e*sin E - M) / (1 - e*cos E)` (line 64). -/
noncomputable def keplerStep (e M E : ℝ) : ℝ :=
  E - (E - e * Real.sin E - M) / (1 - e * Real.cos E)

/-- Iterated Newton-Raphson for Kepler's equation, seeded at `E₀ = M`. -/
noncomputable def keplerIter (e M : ℝ) : Nat → ℝ
  | 0 => M
  | n + 1 => keplerStep e M (keplerIter e M n)

/-- The eccentric anomaly produced by the fixed 10-iteration solve (lines 62-64). -/
noncomputable def solveE (e M : ℝ) : ℝ :=
  keplerIter e M 10

/-- True anomaly from the eccentric anomaly (lines 67-68). -/
noncomputable def trueAnomaly (e E : ℝ) : ℝ :=
  2 * atan2 (Real.sqrt (1 + e) * Real.sin (E / 2))
    (Real.sqrt (1 - e) * Real.cos (E / 2))

/-- Distance from the Sun `r = a * (1 - e * cos E)` (line 71). -/
noncomputable def orbitalRadius (a e E : ℝ) : ℝ :=
  a * (1 - e * Real.cos E)

/-- The orbital-element record consumed by `calculate_planet_position`. -/
structure OrbitalElements where
  semi_major_axis : ℝ
  eccentricity : ℝ
  inclination : ℝ
  orbital_period : ℝ
  mean_anomaly_0 : ℝ
  perihelion_0 : ℝ
  ascending_node_0 : ℝ

/-- The position/velocity dict returned by the calculators. -/
structure StateVector where
  x : ℝ
  y : ℝ
  z : ℝ
  vx : ℝ
  vy : ℝ
  vz : ℝ
  distance_sun : ℝ
  speed_sun : ℝ

/-- `OrbitalCalculator.calculate_planet_position` (lines 33-120). -/
noncomputable def calculate_planet_position (oe : OrbitalElements)
    (current_time : DateTime) : StateVector :=
  let a := oe.semi_major_axis
  let e := oe.eccentricity
  let i := radians oe.inclination
  let period := oe.orbital_period * YEAR_SECONDS
  let M0 := radians oe.mean_anomaly_0
  let w0 := radians oe.perihelion_0
  let O0 := radians oe.ascending_node_0
  let n := 2 * Real.pi / period
  let jd := julian_date current_time
  let days := days_since_epoch jd
  let t := days * DAY_SECONDS
  let M := M0 + n * t
  let E := solveE e M
  let nu := trueAnomaly e E
  let r := orbitalRadius a e E
  let x_orbital := r * Real.cos nu
  let y_orbital := r * Real.sin nu
  let z_orbital : ℝ := 0
  let w := w0
  let x1 := x_orbital
  let y1 := y_orbital * Real.cos i - z_orbital * Real.sin i
  let z1 := y_orbital * Real.sin i + z_orbital * Real.cos i
  let x_ecliptic := x1 * Real.cos O0 - y1 * Real.sin O0
  let y_ecliptic := x1 * Real.sin O0 + y1 * Real.cos O0
  let z_ecliptic := z1
  let mu := G * M_SUN
  let v_orbital := Real.sqrt (mu * (2 / (r * AU) - 1 / (a * AU)))
  let vx_orbital := -v_orbital * Real.sin nu
  let vy_orbital := v_orbital * Real.sqrt (1 - e ^ 2) * Real.cos nu
  let vz_orbital : ℝ := 0
  let vx1 := vx_orbital
  let vy1 := vy_orbital * Real.cos i - vz_orbital * Real.sin i
  let vz1 := vy_orbital * Real.sin i + vz_orbital * Real.cos i
  let vx_ecliptic := vx1 * Real.cos O0 - vy1 * Real.sin O0
  let vy_ecliptic := vx1 * Real.sin O0 + vy1 * Real.cos O0
  let vz_ecliptic := vz1
  ⟨x_ecliptic, y_ecliptic, z_ecliptic, vx_ecliptic, vy_ecliptic, vz_ecliptic,
    r, v_orbital⟩

/-- Moon orbital data consumed by `calculate_moon_position`
(`semi_major_axis` in km, `orbital_period` in days, `inclination` in degrees). -/
structure MoonData where
  semi_major_axis : ℝ
  orbital_period : ℝ
  inclination : ℝ

/-- The moon's mean anomaly `M = n * t` with `M0` assumed 0 (lines 134-142). -/
noncomputable def moonMeanAnomaly (md : MoonData) (current_time : DateTime) : ℝ :=
  let period := md.orbital_period * DAY_SECONDS
  let n := 2 * Real.pi / period
  let t := days_since_epoch (julian_date current_time) * DAY_SECONDS
  n * t

/-- `OrbitalCalculator.calculate_moon_position` (lines 122-187). -/
noncomputable def calculate_moon_position (md : MoonData) (parent : StateVector)
    (current_time : DateTime) : StateVector :=
  let a := md.semi_major_axis / AU
  let period := md.orbital_period * DAY_SECONDS
  let i := radians md.inclination
  let M := moonMeanAnomaly md current_time
  let x_orbital := a * Real.cos M
  let y_orbital := a * Real.sin M
  let x_ecliptic := x_orbital
  let y_ecliptic := y_orbital * Real.cos i
  let z_ecliptic := y_orbital * Real.sin i
  let x_sun := parent.x + x_ecliptic
  let y_sun := parent.y + y_ecliptic
  let z_sun := parent.z + z_ecliptic
  let v_moon := 2 * Real.pi * a * AU / period
  let vx_orbital := -v_moon * Real.sin M
  let vy_orbital := v_moon * Real.cos M
  let vx_ecliptic := vx_orbital
  let vy_ecliptic := vy_orbital * Real.cos i
  let vz_ecliptic := vy_orbital * Real.sin i
  let vx_total := parent.vx + vx_ecliptic
  let vy_total := parent.vy + vy_ecliptic
  let vz_total := parent.vz + vz_ecliptic
  ⟨x_sun, y_sun, z_sun, vx_total, vy_total, vz_total,
    Real.sqrt (x_sun ^ 2 + y_sun ^ 2 + z_sun ^ 2),
    Real.sqrt (vx_total ^ 2 + vy_total ^ 2 + vz_total ^ 2)⟩

/-- Test whether the first character list is an initial segment of the second. -/
def beginsWith : List Char → List Char → Bool
  | [], _ => true
  | _ :: _, [] => false
  | a :: as, b :: bs => a == b && beginsWith as bs

/-- Whether the character list `n` occurs contiguously inside `h`. -/
def occursIn (n : List Char) : List Char → Bool
  | [] => n.isEmpty
  | c :: t => beginsWith n (c :: t) || occursIn n t

/-- Python substring membership `n in h` on strings. -/
def strOccurs (n h : String) : Bool :=
  occursIn n.data h.data

/-- The spacecraft record consumed by `calculate_spacecraft_position`.
`name_en` models `spacecraft_data.get('name_en', '')`; `arrival_time` is
`none` when the field is missing or `None`; `launch_speed` is `none` when the
key is absent so that `.get('launch_speed', default)` becomes `Option.getD`. -/
structure SpacecraftRecord where
  launch_date : String
  status : String
  trajectory_type : String
  target_body : String
  name_en : String
  arrival_time : Option String
  launch_speed : Option ℝ

/-- The distance dispatch of `calculate_spacecraft_position` (lines 215-286),
with `launch` the parsed launch date and `tsl` the years since launch. -/
noncomputable def spacecraftDistance (sd : SpacecraftRecord) (launch : Date)
    (tsl : ℝ) (hasArr : Bool) : ℝ :=
  if sd.status = "inactive" then
    if sd.target_body = "Jupiter" then 5.2 + tsl * 0.1
    else if sd.target_body = "Saturn" then 9.5 + tsl * 0.1
    else if sd.target_body = "Mars" then 1.5 + tsl * 0.05
    else if sd.target_body = "Interstellar space" then 30 + tsl * 2
    else 1.0 + tsl * 0.5
  else
    if sd.target_body = "Interstellar space" then
      let years_past_1977 := tsl + ((1977 : ℝ) - (launch.year : ℝ))
      40 + years_past_1977 * 3.6
    else if sd.target_body = "Jupiter" then
      if strOccurs "orbiter" sd.trajectory_type || hasArr then 5.2
      else
        let progress := min (tsl / 6.0) 1.0
        1.0 + progress * 4.2
    else if sd.target_body = "Saturn" then
      if hasArr then 9.5
      else
        let progress := min (tsl / 7.0) 1.0
        1.0 + progress * 8.5
    else if sd.target_body = "Mars" then
      if strOccurs "rover" sd.trajectory_type || strOccurs "lander" sd.trajectory_type then 1.5
      else
        let progress := min (tsl / 0.55) 1.0
        1.0 + progress * 0.5
    else if sd.target_body = "Sun" then
      let orbital_period : ℝ := 0.24
      let time_in_orbit := fmod tsl orbital_period
      let phase := time_in_orbit / orbital_period * (2 * Real.pi)
      let perihelion : ℝ := 0.046
      let aphelion : ℝ := 0.73
      let semi_major_axis := (perihelion + aphelion) / 2
      semi_major_axis * (1 - 0.88 * Real.cos phase)
    else if sd.target_body = "Europa" ∨ sd.target_body = "Trojan asteroids" ∨
        sd.target_body = "Kuiper Belt" then
      if sd.target_body = "Europa" then
        let progress := min (tsl / 6.0) 1.0
        1.0 + progress * 4.2
      else if sd.target_body = "Trojan asteroids" then
        let progress := min (tsl / 12.0) 1.0
        1.0 + progress * 4.2
      else
        30 + tsl * 1
    else 1.0 + tsl * 0.3

/-- The speed dispatch of `calculate_spacecraft_position` (lines 294-371). -/
noncomputable def spacecraftSpeed (sd : SpacecraftRecord) (tsl : ℝ)
    (distance_from_sun : ℝ) (hasArr : Bool)
    (target_position earth_position : Option StateVector) : ℝ :=
  if sd.status = "inactive" then
    if sd.target_body = "Interstellar space" then sd.launch_speed.getD 16 * 0.95
    else 10 + tsl * 0.1
  else
    if sd.target_body = "Sun" ∧ sd.name_en = "Parker Solar Probe" then
      let orbital_period : ℝ := 0.24
      let time_in_orbit := fmod tsl orbital_period
      let phase := time_in_orbit / orbital_period * (2 * Real.pi)
      let perihelion : ℝ := 0.046
      let aphelion : ℝ := 0.73
      let current_distance := distance_from_sun
      let semi_major_axis := (perihelion + aphelion) / 2
      let semi_major_axis_km := semi_major_axis * AU
      let current_distance_km := current_distance * AU
      let mu := G * M_SUN
      Real.sqrt (mu * (2 / current_distance_km - 1 / semi_major_axis_km))
    else if sd.target_body = "Interstellar space" ∧
        (strOccurs "Voyager" sd.name_en || strOccurs "Pioneer" sd.name_en) then
      sd.launch_speed.getD 16.5 * 0.95
    else if sd.target_body = "Kuiper Belt" ∧ sd.name_en = "New Horizons" then 14.5
    else if strOccurs "orbiter" sd.trajectory_type ∧ target_position.isSome then
      match target_position with
      | some tp => tp.speed_sun
      | none => 10
    else if strOccurs "rover" sd.trajectory_type || strOccurs "lander" sd.trajectory_type then
      if sd.target_body = "Mars" then 24.1
      else if sd.target_body = "Jupiter" then 13.1
      else
        match earth_position with
        | some ep => ep.speed_sun
        | none => 30
    else if hasArr then
      if sd.target_body = "Jupiter" then 13.1
      else if sd.target_body = "Saturn" then 9.7
      else if sd.target_body = "Mars" then 24.1
      else 30
    else
      let semi_major_axis := (1.0 + distance_from_sun) / 2
      let semi_major_axis_km := semi_major_axis * AU
      let current_distance_km := distance_from_sun * AU
      let mu := G * M_SUN
      Real.sqrt (mu * (2 / current_distance_km - 1 / semi_major_axis_km))

/-- Position and velocity synthesis of `calculate_spacecraft_position`
(lines 288-387), after the launch date has been parsed and the elapsed
years and arrival flag derived. -/
noncomputable def spacecraftState (sd : SpacecraftRecord) (launch : Date)
    (tsl : ℝ) (hasArr : Bool) (tp ep : Option StateVector) : StateVector :=
  let distance_from_sun := spacecraftDistance sd launch tsl hasArr
  let angle := fmod (tsl * 2 * Real.pi) (2 * Real.pi)
  let x := distance_from_sun * Real.cos angle
  let y := distance_from_sun * Real.sin angle
  let z := distance_from_sun * 0.05 * Real.sin angle
  let speed := spacecraftSpeed sd tsl distance_from_sun hasArr tp ep
  ⟨x, y, z, -speed * Real.sin angle, speed * Real.cos angle, 0,
    distance_from_sun, speed⟩

/-- `OrbitalCalculator.calculate_spacecraft_position` (lines 189-387), with
`datetime.now()` made the explicit `current_time` parameter.  The result is
`none` when the function raises: the `strptime` of the launch date at line 195
is unguarded, so a launch date that fails to parse propagates a `ValueError`. -/
noncomputable def calculate_spacecraft_position (sd : SpacecraftRecord)
    (target_position earth_position : Option StateVector)
    (current_time : DateTime) : Option StateVector :=
  match parseDate sd.launch_date with
  | none => none
  | some launch =>
    let tsl := elapsedSeconds (dateStart launch) current_time / YEAR_SECONDS
    some (spacecraftState sd launch tsl (hasArrived sd.arrival_time current_time)
      target_position earth_position)

/-- The relative distance/speed dict of `calculate_relative_to_earth`. -/
structure RelMotion where
  distance_earth : ℝ
  speed_earth : ℝ

/-- `OrbitalCalculator.calculate_relative_to_earth` (lines 389-409). -/
noncomputable def calculate_relative_to_earth (body_position earth_position :
    StateVector) : RelMotion :=
  let dx := body_position.x - earth_position.x
  let dy := body_position.y - earth_position.y
  let dz := body_position.z - earth_position.z
  let dvx := body_position.vx - earth_position.vx
  let dvy := body_position.vy - earth_position.vy
  let dvz := body_position.vz - earth_position.vz
  ⟨Real.sqrt (dx ^ 2 + dy ^ 2 + dz ^ 2),
    Real.sqrt (dvx ^ 2 + dvy ^ 2 + dvz ^ 2)⟩

/-- A sample evaluation instant used by concrete witnesses. -/
def sampleTime : DateTime :=
  ⟨2024, 3, 15, 10, 30, 0, 0⟩

/-- A second, later sample evaluation instant. -/
def sampleTime2 : DateTime :=
  ⟨2025, 6, 1, 0, 0, 0, 0⟩

/-- A sample orbiter record with a parseable launch date. -/
def sdSample : SpacecraftRecord :=
  ⟨"2011-08-05", "active", "orbiter", "Jupiter", "Juno", some "2016-07-04", none⟩

/-- A sample record whose launch date does not parse. -/
def sdBadLaunch : SpacecraftRecord :=
  ⟨"not-a-date", "active", "flyby", "Jupiter", "", none, none⟩

/-- A sample record with a parseable launch date and an unparsable arrival. -/
def sdBadArrival : SpacecraftRecord :=
  ⟨"2011-08-05", "active", "orbiter", "Jupiter", "Juno", some "2020-99-99", none⟩

/-- A sample inactive spacecraft bound for interstellar space. -/
def sdInactive : SpacecraftRecord :=
  ⟨"1972-03-03", "inactive", "flyby", "Interstellar space", "Pioneer 10", none,
    some 16.3⟩

/-- Sample moon data with zero inclination. -/
def moonSample : MoonData :=
  ⟨384400, 27.321661, 0⟩

/-- A sample parent state vector with zero velocity. -/
def parentSample : StateVector :=
  ⟨0.5, -0.8, 0.01, 0, 0, 0, 0.94, 29.8⟩

/-- Sample orbital elements (Earth-like). -/
def oeSample : OrbitalElements :=
  ⟨1.0, 0.0167086, 0.00005, 1.000017, 358.617, 114.20783, 0⟩

/-- C3: two orbital-element records that differ only in the `perihelion_0`
(argument-of-perihelion) field produce identical StateVectors from
`calculate_planet_position` at every evaluation timestamp: the angle is read
and converted (line 46) but applied in no distinct rotation step, so it has
no influence on any output field. -/
theorem c3_perihelion_no_influence (oe : OrbitalElements) (p : ℝ) (ct : DateTime) :
    calculate_planet_position { oe with perihelion_0 := p } ct =
      calculate_planet_position oe ct :=
  rfl

/-- C4: the spacecraft position estimator is a deterministic function of
exactly the spacecraft record, the optional target-body state, the optional
reference-body state, and the evaluation timestamp (the code's
`datetime.now()` read, made explicit): two calls with identical values of
these four inputs return identical results. -/
theorem c4_deterministic (sd1 sd2 : SpacecraftRecord)
    (tp1 tp2 ep1 ep2 : Option StateVector) (n1 n2 : DateTime)
    (hsd : sd1 = sd2) (htp : tp1 = tp2) (hep : ep1 = ep2) (hn : n1 = n2) :
    calculate_spacecraft_position sd1 tp1 ep1 n1 =
      calculate_spacecraft_position sd2 tp2 ep2 n2 := by
  subst hsd; subst htp; subst hep; subst hn; rfl

/-- Witness for C4 at a concrete record, absent optional states, and a
concrete evaluation instant. -/
theorem c4_deterministic_witness :
    calculate_spacecraft_position sdSample none none sampleTime =
      calculate_spacecraft_position sdSample none none sampleTime :=
  c4_deterministic sdSample sdSample none none none none sampleTime sampleTime
    rfl rfl rfl rfl

/-- C7: `calculate_relative_to_earth` returns the Euclidean norm of the
position difference and of the velocity difference; on identical arguments
both magnitudes are 0, and swapping the two arguments leaves both unchanged. -/
theorem c7_relative_motion (A B : StateVector) :
    calculate_relative_to_earth A A = ⟨0, 0⟩ ∧
    calculate_relative_to_earth A B = calculate_relative_to_earth B A ∧
    (calculate_relative_to_earth A B).distance_earth =
      Real.sqrt ((A.x - B.x) ^ 2 + (A.y - B.y) ^ 2 + (A.z - B.z) ^ 2) ∧
    (calculate_relative_to_earth A B).speed_earth =
      Real.sqrt ((A.vx - B.vx) ^ 2 + (A.vy - B.vy) ^ 2 + (A.vz - B.vz) ^ 2) := by
  refine ⟨?_, ?_, rfl, rfl⟩
  · unfold calculate_relative_to_earth
    simp [sub_self]
  · unfold calculate_relative_to_earth
    exact congrArg₂ RelMotion.mk (congrArg Real.sqrt (by ring))
      (congrArg Real.sqrt (by ring))

/-- C10: on every branch of the distance and speed dispatch, the velocity
vector returned by `calculate_spacecraft_position` has `vz = 0` (line 376
sets it unconditionally), even though the returned position's z-component is
generally nonzero. -/
theorem c10_velocity_planar (sd : SpacecraftRecord) (tp ep : Option StateVector)
    (ct : DateTime) (sv : StateVector)
    (h : calculate_spacecraft_position sd tp ep ct = some sv) :
    sv.vz = 0 := by
  unfold calculate_spacecraft_position at h
  cases hq : parseDate sd.launch_date with
  | none => rw [hq] at h; cases h
  | some launch =>
    rw [hq] at h
    injection h with h2
    rw [← h2]
    rfl

/-- Witness for C10 at a concrete record and instant. -/
theorem c10_velocity_planar_witness :
    (spacecraftState sdSample ⟨2011, 8, 5⟩
        (elapsedSeconds (dateStart ⟨2011, 8, 5⟩) sampleTime / YEAR_SECONDS)
        (hasArrived sdSample.arrival_time sampleTime) none none).vz = 0 :=
  c10_velocity_planar sdSample none none sampleTime _ rfl

/-- C1: the derived `hasArrived` flag is true exactly when the arrival text is
present, parses as a valid `%Y-%m-%d` calendar date, and that date is at or
before the evaluation instant; a missing arrival time or any parse failure
yields `false`. -/
theorem c1_hasArrived_iff (arrival : Option String) (now : DateTime) :
    hasArrived arrival now = true ↔
      ∃ s d, arrival = some s ∧ parseDate s = some d ∧
        dtMicro (dateStart d) ≤ dtMicro now := by
  constructor
  · intro h
    cases arrival with
    | none => cases h
    | some s =>
      simp only [hasArrived] at h
      by_cases hs : s = ""
      · rw [if_pos hs] at h; cases h
      · rw [if_neg hs] at h
        cases hq : parseDate s with
        | none => rw [hq] at h; cases h
        | some d =>
          rw [hq] at h
          exact ⟨s, d, rfl, hq, of_decide_eq_true h⟩
  · rintro ⟨s, d, rfl, hq, hle⟩
    have hs : s ≠ "" := by
      intro he
      have h0 : parseDate "" = none := rfl
      rw [he, h0] at hq
      cases hq
    simp only [hasArrived]
    rw [if_neg hs, hq]
    exact decide_eq_true hle

/-- C2 counterexample: an unparsable launch date DOES propagate an error out
of `calculate_spacecraft_position` — the `strptime` call at line 195 is not
guarded by any try/except, so the raised `ValueError` (modelled as `none`)
escapes the core on this concrete input. -/
theorem c2_counterexample :
    calculate_spacecraft_position sdBadLaunch none none sampleTime = none :=
  rfl

/-- C2 amended: an unparsable arrival time is handled by the fail-safe default
"not yet arrived" (the computation proceeds with the arrival flag false), but
an unparsable launch date raises out of `calculate_spacecraft_position`. -/
theorem c2_amended (sd : SpacecraftRecord) (tp ep : Option StateVector)
    (now : DateTime) (s : String)
    (ha : sd.arrival_time = some s) (hps : parseDate s = none) :
    (∀ launch, parseDate sd.launch_date = some launch →
        calculate_spacecraft_position sd tp ep now =
          some (spacecraftState sd launch
            (elapsedSeconds (dateStart launch) now / YEAR_SECONDS) false tp ep)) ∧
      (parseDate sd.launch_date = none →
        calculate_spacecraft_position sd tp ep now = none) := by
  have harr : hasArrived sd.arrival_time now = false := by
    rw [ha]
    simp only [hasArrived]
    by_cases hs : s = ""
    · rw [if_pos hs]
    · rw [if_neg hs, hps]
  constructor
  · intro launch hq
    unfold calculate_spacecraft_position
    rw [hq, harr]
  · intro hq
    unfold calculate_spacecraft_position
    rw [hq]

/-- Witness for C2's amended statement: a record with a parseable launch date
and the unparsable arrival text "2020-99-99". -/
theorem c2_amended_witness :
    (∀ launch, parseDate sdBadArrival.launch_date = some launch →
        calculate_spacecraft_position sdBadArrival none none sampleTime =
          some (spacecraftState sdBadArrival launch
            (elapsedSeconds (dateStart launch) sampleTime / YEAR_SECONDS)
            false none none)) ∧
      (parseDate sdBadArrival.launch_date = none →
        calculate_spacecraft_position sdBadArrival none none sampleTime = none) :=
  c2_amended sdBadArrival none none sampleTime "2020-99-99" rfl rfl

/-- The Newton-Raphson iterates are all `M` in the circular case `e = 0`. -/
theorem keplerIter_zero_ecc (M : ℝ) : ∀ n, keplerIter 0 M n = M
  | 0 => rfl
  | n + 1 => by
    show keplerStep 0 M (keplerIter 0 M n) = M
    rw [keplerIter_zero_ecc M n]
    unfold keplerStep
    simp

/-- The 10-iteration Kepler solve returns `M` itself when `e = 0`. -/
theorem solveE_zero_ecc (M : ℝ) : solveE 0 M = M :=
  keplerIter_zero_ecc M 10

/-- C6: in the circular case `e = 0`, for every mean anomaly `M` the Kepler
solve yields a true anomaly equal to `M` modulo 2π and an orbital radius
exactly equal to the semi-major axis `a`. -/
theorem c6_circular_case (a M : ℝ) :
    (∃ k : ℤ, trueAnomaly 0 (solveE 0 M) = M + 2 * Real.pi * k) ∧
      orbitalRadius a 0 (solveE 0 M) = a := by
  constructor
  · refine ⟨2 * ⌊(Real.pi - M / 2) / (2 * Real.pi)⌋, ?_⟩
    rw [solveE_zero_ecc]
    unfold trueAnomaly atan2
    rw [add_zero, sub_zero, Real.sqrt_one, one_mul, one_mul]
    have h := Complex.arg_cos_add_sin_mul_I_sub (M / 2)
    rw [Complex.ofReal_cos, Complex.ofReal_sin]
    have hcast : ((2 * ⌊(Real.pi - M / 2) / (2 * Real.pi)⌋ : ℤ) : ℝ) =
        2 * ((⌊(Real.pi - M / 2) / (2 * Real.pi)⌋ : ℤ) : ℝ) := by
      push_cast
      ring
    rw [hcast]
    linear_combination 2 * h
  · unfold orbitalRadius
    simp

/-- C8: a spacecraft record with status "inactive", target body
"Interstellar space" and launch speed 16.3, evaluated at any instant at or
after launch, yields speed exactly 16.3 * 0.95, and its distance from the Sun
is strictly monotonically increasing in the elapsed time since launch. -/
theorem c8_inactive_interstellar (sd : SpacecraftRecord) (L : Date)
    (tp ep : Option StateVector) (n1 n2 : DateTime)
    (hL : parseDate sd.launch_date = some L)
    (hst : sd.status = "inactive")
    (htb : sd.target_body = "Interstellar space")
    (hsp : sd.launch_speed = some 16.3)
    (h0 : dtMicro (dateStart L) ≤ dtMicro n1)
    (h12 : dtMicro n1 < dtMicro n2) :
    ∃ sv1 sv2,
      calculate_spacecraft_position sd tp ep n1 = some sv1 ∧
        calculate_spacecraft_position sd tp ep n2 = some sv2 ∧
        sv1.speed_sun = 16.3 * 0.95 ∧ sv2.speed_sun = 16.3 * 0.95 ∧
        sv1.distance_sun < sv2.distance_sun := by
  have hspd : ∀ t d arr, spacecraftSpeed sd t d arr tp ep = 16.3 * 0.95 := by
    intro t d arr
    unfold spacecraftSpeed
    rw [if_pos hst, if_pos htb, hsp]
    rfl
  have hdist : ∀ t arr, spacecraftDistance sd L t arr = 30 + t * 2 := by
    intro t arr
    unfold spacecraftDistance
    rw [hst, htb]
    simp
  refine ⟨spacecraftState sd L (elapsedSeconds (dateStart L) n1 / YEAR_SECONDS)
      (hasArrived sd.arrival_time n1) tp ep,
    spacecraftState sd L (elapsedSeconds (dateStart L) n2 / YEAR_SECONDS)
      (hasArrived sd.arrival_time n2) tp ep, ?_, ?_, ?_, ?_, ?_⟩
  · simp only [calculate_spacecraft_position, hL]
  · simp only [calculate_spacecraft_position, hL]
  · exact hspd _ _ _
  · exact hspd _ _ _
  · show spacecraftDistance sd L (elapsedSeconds (dateStart L) n1 / YEAR_SECONDS) _ <
      spacecraftDistance sd L (elapsedSeconds (dateStart L) n2 / YEAR_SECONDS) _
    rw [hdist, hdist]
    have hlt : ((dtMicro n1 - dtMicro (dateStart L) : ℤ) : ℝ) <
        ((dtMicro n2 - dtMicro (dateStart L) : ℤ) : ℝ) := by
      exact_mod_cast sub_lt_sub_right h12 (dtMicro (dateStart L))
    have hYe : YEAR_SECONDS = 31557600 := by norm_num [YEAR_SECONDS, DAY_SECONDS]
    unfold elapsedSeconds
    rw [hYe]
    linarith

/-- Witness for C8: the inactive interstellar record evaluated at two concrete
instants after its 1972-03-03 launch. -/
theorem c8_inactive_interstellar_witness :
    ∃ sv1 sv2,
      calculate_spacecraft_position sdInactive none none sampleTime = some sv1 ∧
        calculate_spacecraft_position sdInactive none none sampleTime2 = some sv2 ∧
        sv1.speed_sun = 16.3 * 0.95 ∧ sv2.speed_sun = 16.3 * 0.95 ∧
        sv1.distance_sun < sv2.distance_sun :=
  c8_inactive_interstellar sdInactive ⟨1972, 3, 3⟩ none none sampleTime sampleTime2
    rfl rfl rfl rfl (by decide) (by decide)

/-- C9: with a zero-velocity parent and zero inclination, the moon's
heliocentric position is the parent position plus the circular planar offset
`a * (cos M, sin M, 0)`, and its reported speed relative to the Sun is exactly
its own orbital speed `2π * a * AU / periodSeconds`. -/
theorem c9_moon_zero_velocity_parent (md : MoonData) (parent : StateVector)
    (ct : DateTime)
    (hvx : parent.vx = 0) (hvy : parent.vy = 0) (hvz : parent.vz = 0)
    (hi : md.inclination = 0) (hsa : 0 ≤ md.semi_major_axis)
    (hop : 0 < md.orbital_period) :
    (calculate_moon_position md parent ct).x =
        parent.x + md.semi_major_axis / AU * Real.cos (moonMeanAnomaly md ct) ∧
      (calculate_moon_position md parent ct).y =
        parent.y + md.semi_major_axis / AU * Real.sin (moonMeanAnomaly md ct) ∧
      (calculate_moon_position md parent ct).z = parent.z ∧
      (calculate_moon_position md parent ct).speed_sun =
        2 * Real.pi * (md.semi_major_axis / AU) * AU /
          (md.orbital_period * DAY_SECONDS) := by
  have hrad : radians md.inclination = 0 := by
    rw [hi]; unfold radians; ring
  have hAU : (0 : ℝ) < AU := by norm_num [AU]
  refine ⟨rfl, ?_, ?_, ?_⟩
  · show parent.y + md.semi_major_axis / AU * Real.sin (moonMeanAnomaly md ct) *
        Real.cos (radians md.inclination) =
      parent.y + md.semi_major_axis / AU * Real.sin (moonMeanAnomaly md ct)
    rw [hrad, Real.cos_zero, mul_one]
  · show parent.z + md.semi_major_axis / AU * Real.sin (moonMeanAnomaly md ct) *
        Real.sin (radians md.inclination) = parent.z
    rw [hrad, Real.sin_zero, mul_zero, add_zero]
  · show Real.sqrt
        ((parent.vx + -(2 * Real.pi * (md.semi_major_axis / AU) * AU /
            (md.orbital_period * DAY_SECONDS)) * Real.sin (moonMeanAnomaly md ct)) ^ 2 +
          (parent.vy + 2 * Real.pi * (md.semi_major_axis / AU) * AU /
            (md.orbital_period * DAY_SECONDS) * Real.cos (moonMeanAnomaly md ct) *
            Real.cos (radians md.inclination)) ^ 2 +
          (parent.vz + 2 * Real.pi * (md.semi_major_axis / AU) * AU /
            (md.orbital_period * DAY_SECONDS) * Real.cos (moonMeanAnomaly md ct) *
            Real.sin (radians md.inclination)) ^ 2) =
      2 * Real.pi * (md.semi_major_axis / AU) * AU /
        (md.orbital_period * DAY_SECONDS)
    set V := 2 * Real.pi * (md.semi_major_axis / AU) * AU /
      (md.orbital_period * DAY_SECONDS) with hV
    set M := moonMeanAnomaly md ct with hM
    rw [hvx, hvy, hvz, hrad, Real.sin_zero, Real.cos_zero]
    have hv0 : 0 ≤ V := by
      rw [hV]
      exact div_nonneg
        (mul_nonneg (mul_nonneg (by positivity) (div_nonneg hsa hAU.le)) hAU.le)
        (mul_pos hop (by norm_num [DAY_SECONDS])).le
    have hkey : (0 + -V * Real.sin M) ^ 2 + (0 + V * Real.cos M * 1) ^ 2 +
        (0 + V * Real.cos M * 0) ^ 2 = V ^ 2 := by
      linear_combination V ^ 2 * Real.sin_sq_add_cos_sq M
    rw [hkey, Real.sqrt_sq hv0]

/-- Witness for C9 at concrete moon data, a concrete zero-velocity parent and
a concrete instant. -/
theorem c9_moon_zero_velocity_parent_witness :
    (calculate_moon_position moonSample parentSample sampleTime).x =
        parentSample.x + moonSample.semi_major_axis / AU *
          Real.cos (moonMeanAnomaly moonSample sampleTime) ∧
      (calculate_moon_position moonSample parentSample sampleTime).y =
        parentSample.y + moonSample.semi_major_axis / AU *
          Real.sin (moonMeanAnomaly moonSample sampleTime) ∧
      (calculate_moon_position moonSample parentSample sampleTime).z =
        parentSample.z ∧
      (calculate_moon_position moonSample parentSample sampleTime).speed_sun =
        2 * Real.pi * (moonSample.semi_major_axis / AU) * AU /
          (moonSample.orbital_period * DAY_SECONDS) :=
  c9_moon_zero_velocity_parent moonSample parentSample sampleTime rfl rfl rfl rfl
    (by norm_num [moonSample]) (by norm_num [moonSample])
